import Mathlib

/-!
Verification of the decode/verify core of `smart_health_card_reader`
(`src/smart_health_card_reader/parse.py`), as a shallow embedding.

Conventions of the embedding:
* Python exceptions are modelled by `Except PyErr`; `PyErr` carries the
  structured payload of each exception (the set of offending characters,
  the offending length, the missing dictionary key, ...), abstracting the
  exact `str()` formatting of the message.
* JSON values already parsed by `json.loads` are modelled by the inductive
  `Json`; the `json.loads` boundary itself (Python standard library) is a
  parameter `loads : String → Except PyErr Json` of the functions that use
  it, as are the network fetch (`urllib.request.urlopen`), raw-deflate
  decompression (`zlib.decompress(·, -15)`), UTF-8 decoding of bytes
  (`bytes.decode`) and the hash function (`hashlib.sha256` via fastecdsa).
* Bytes (`bytes`) are `List Nat`, each entry < 256.
* `base64.b64decode(b64 + "==", altchars=b"-_", validate=True)` is modelled
  after the CPython semantics the repository was written against (2021,
  Python ≤ 3.10): character validation against the translated alphabet
  followed by the lenient `binascii.a2b_base64` quad decoder, which stops
  at the first complete padding and ignores left-over bits.
-/

/-- JSON value, the result of Python `json.loads`. Numbers are modelled as
integers (no claim exercises numeric payloads); objects are the key/value
pairs of the parsed `dict`, whose keys are unique. -/
inductive Json where
  | null : Json
  | bool : Bool → Json
  | num : Int → Json
  | str : String → Json
  | arr : List Json → Json
  | obj : List (String × Json) → Json

/-- Structured model of the Python exceptions raised by `parse.py` and the
libraries it calls. Payloads keep the data interpolated into the message
(the message text itself is abstracted). -/
inductive PyErr where
  /-- `ValueError` of `qr_int_str_to_b64`, carrying the set of non-numeric
  characters found (Python formats the `set`; we keep the set as a
  duplicate-free list). -/
  | valueErrorInvalidChars : List Char → PyErr
  /-- `ValueError` of `qr_int_str_to_b64` for odd-length input, carrying the
  reported actual length. -/
  | valueErrorOddLength : Nat → PyErr
  /-- `binascii.Error` from `base64.b64decode`. -/
  | binasciiError : String → PyErr
  /-- `IndexError` from a list subscript. -/
  | indexError : PyErr
  /-- `KeyError` from a dict subscript or the explicit raise in
  `get_public_key_from_keyset`, carrying the key / message. -/
  | keyError : String → PyErr
  /-- `AssertionError` from an `assert` statement, carrying the source text
  of the failed assertion. -/
  | assertionError : String → PyErr
  /-- `TypeError` from subscripting a non-dict JSON value. -/
  | typeError : String → PyErr
  /-- `ValueError` from `fastecdsa.point.Point.__init__` for coordinates
  that are not on the curve. -/
  | valueError : String → PyErr
  /-- `fastecdsa.ecdsa.EcdsaError` raised by `ecdsa.verify`. -/
  | ecdsaError : String → PyErr
deriving DecidableEq

/-- Python dict lookup on a parsed JSON object (keys of a parsed dict are
unique, so first match suffices). -/
def jlookup (o : List (String × Json)) (k : String) : Option Json :=
  (o.find? (fun p => p.1 == k)).map (fun p => p.2)

/-- Python subscript `j[k]` on a JSON value: `KeyError` when the key is
absent, `TypeError` when `j` is not a dict. -/
def pyGetItem (j : Json) (k : String) : Except PyErr Json :=
  match j with
  | Json.obj o =>
    match jlookup o k with
    | some v => Except.ok v
    | none => Except.error (PyErr.keyError k)
  | _ => Except.error (PyErr.typeError "subscript of a non-dict value")

/-- Python membership test `k in j` for a parsed JSON dict. -/
def pyContains (j : Json) (k : String) : Bool :=
  match j with
  | Json.obj o => (jlookup o k).isSome
  | _ => false

/-- Python equality `v == s` between a decoded JSON value and a `str`
literal: true exactly when `v` is that string. -/
def pyEqStr (v : Json) (s : String) : Bool :=
  match v with
  | Json.str t => t == s
  | _ => false

/-- The characters of `"0123456789"`: the digit set `qr_int_str_to_b64`
validates against. -/
def digitChars : List Char := "0123456789".data

/-- The decoding loop of `qr_int_str_to_b64`: consume two characters at a
time, read them as a two-digit decimal number, add 45 and take that code
point. The input always has even length when this runs. -/
def decodePairs : List Char → List Char
  | a :: b :: rest =>
    Char.ofNat ((a.toNat - 48) * 10 + (b.toNat - 48) + 45) :: decodePairs rest
  | _ => []

/-- Model of `qr_int_str_to_b64` (parse.py lines 48-69): reject non-digit
characters (reporting the whole set of offenders), then reject odd length
(reporting the length), then transcode pair by pair. -/
def qr_int_str_to_b64 (qr_int_str : String) : Except PyErr String :=
  let invalid_chars : List Char :=
    (qr_int_str.data.filter (fun c => !(digitChars.contains c))).dedup
  if invalid_chars.isEmpty then
    if qr_int_str.length % 2 > 0 then
      Except.error (PyErr.valueErrorOddLength qr_int_str.length)
    else
      Except.ok (String.mk (decodePairs qr_int_str.data))
  else
    Except.error (PyErr.valueErrorInvalidChars invalid_chars)

/-- Python `str.startswith` on character lists. -/
def startsWithChars : List Char → List Char → Bool
  | _, [] => true
  | [], _ :: _ => false
  | c :: cs, p :: ps => c == p && startsWithChars cs ps

/-- Model of `remove_prefix` (parse.py lines 16-23): strip `pfx` from the
front of `text` when present. -/
def remove_scheme (text : String) (pfx : String := "shc:/") : String :=
  if startsWithChars text.data pfx.data then
    String.mk (text.data.drop pfx.data.length)
  else text

/-- Value of a character of the Base64 alphabet accepted by
`base64.b64decode(·, altchars=b"-_", validate=True)`: the standard
alphabet after translating `-` to `+` and `_` to `/`. `none` for every
other character (including `=`: the source appends its own padding, so a
`=` in the input always fails the validation regex). -/
def b64CharVal (c : Char) : Option Nat :=
  let n := c.toNat
  if 65 ≤ n && n ≤ 90 then some (n - 65)
  else if 97 ≤ n && n ≤ 122 then some (n - 71)
  else if 48 ≤ n && n ≤ 57 then some (n + 4)
  else if n == 43 || n == 45 then some 62
  else if n == 47 || n == 95 then some 63
  else none

/-- Map every character through `b64CharVal`; `none` if any character is
outside the accepted alphabet (the `Non-base64 digit found` validation). -/
def charVals : List Char → Option (List Nat)
  | [] => some []
  | c :: rest =>
    match b64CharVal c, charVals rest with
    | some v, some vs => some (v :: vs)
    | _, _ => none

/-- The quad decoder of `binascii.a2b_base64` on the 6-bit values of the
data characters, with the two `=` appended by `b64_decode` terminating the
final partial quad: a trailing pair contributes one byte, a trailing
triple two bytes, left-over bits are dropped. A single trailing value
(length ≡ 1 mod 4) is rejected before this function runs. -/
def decodeVals : List Nat → List Nat
  | a :: b :: c :: d :: rest =>
    (a * 4 + b / 16) :: ((b % 16) * 16 + c / 4) :: ((c % 4) * 64 + d) ::
      decodeVals rest
  | [a, b, c] => [a * 4 + b / 16, (b % 16) * 16 + c / 4]
  | [a, b] => [a * 4 + b / 16]
  | _ => []

/-- Model of `b64_decode` (parse.py lines 85-88):
`base64.b64decode(b64 + "==", altchars=b"-_", validate=True)`. Characters
are validated first; then the quad decoder rejects data length ≡ 1 mod 4
and otherwise decodes, the appended `==` closing any final partial quad. -/
def b64_decode (b64 : String) : Except PyErr (List Nat) :=
  match charVals b64.data with
  | none => Except.error (PyErr.binasciiError "Non-base64 digit found")
  | some vals =>
    if b64.length % 4 == 1 then
      Except.error (PyErr.binasciiError
        "Invalid base64-encoded string: number of data characters cannot be 1 more than a multiple of 4")
    else
      Except.ok (decodeVals vals)

/-- Model of `decode_sig` (parse.py lines 91-100): Base64-decode the
signature and slice the first 32 bytes and bytes 32..64. Python slicing
never fails: a short decode silently yields short (or empty) slices. -/
def decode_sig (b64_sig : String) : Except PyErr (List Nat × List Nat) := do
  let sig ← b64_decode b64_sig
  Except.ok (sig.take 32, (sig.drop 32).take 32)

/-- Python `str.split(".")` on the character list: split on every dot,
keeping empty segments (`""` splits to one empty segment). -/
def pySplitDot : List Char → List (List Char)
  | [] => [[]]
  | c :: rest =>
    if c = '.' then [] :: pySplitDot rest
    else
      match pySplitDot rest with
      | seg :: segs => (c :: seg) :: segs
      | [] => [[c]]

/-- Python `b64.split(".")` as strings. -/
def str_split_dot (s : String) : List String :=
  (pySplitDot s.data).map String.mk

/-- Python `sep.join(parts)`. -/
def pyJoin (sep : String) : List String → String
  | [] => ""
  | [x] => x
  | x :: xs => x ++ sep ++ pyJoin sep xs

/-- Python list subscript `l[i]`: `IndexError` when out of range. -/
def pyGetIdx (l : List α) (i : Nat) : Except PyErr α :=
  match l.get? i with
  | some x => Except.ok x
  | none => Except.error PyErr.indexError

/-- Model of `b64_to_fields` (parse.py lines 72-82), parameterised by the
external collaborators `inflate` (`zlib.decompress(·, -15)`) and `utf8`
(`bytes.decode("utf-8")`): split on dots, decode segment 0 as the header,
decode and inflate segment 1 as the payload, keep segment 2 as the
signature text. -/
def b64_to_fields (inflate : List Nat → Except PyErr (List Nat))
    (utf8 : List Nat → Except PyErr String) (b64 : String) :
    Except PyErr (String × String × String) := do
  let raws := str_split_dot b64
  let r0 ← pyGetIdx raws 0
  let hbytes ← b64_decode r0
  let header ← utf8 hbytes
  let r1 ← pyGetIdx raws 1
  let pbytes ← b64_decode r1
  let pinf ← inflate pbytes
  let payload ← utf8 pinf
  let signature ← pyGetIdx raws 2
  Except.ok (header, payload, signature)

/-- Model of `extract_jws_data_from_qr_data` (parse.py lines 139-157):
strip the `shc:/` scheme, transcode the digit string, split into fields,
and rebuild the signed document as `".".join(b64.split(".")[0:2])`. -/
def extract_jws_data_from_qr_data (inflate : List Nat → Except PyErr (List Nat))
    (utf8 : List Nat → Except PyErr String) (qr_data : String) :
    Except PyErr (String × String × String × String) := do
  let qr_digits := remove_scheme qr_data
  let b64 ← qr_int_str_to_b64 qr_digits
  let (header, payload, sig) ← b64_to_fields inflate utf8 b64
  let signed_doc := pyJoin "." ((str_split_dot b64).take 2)
  Except.ok (signed_doc, header, payload, sig)

/-- Model of `get_public_key_url` (parse.py lines 103-107): parse the
payload, read its `iss` field, and append `/.well-known/jwks.json`.
The `f"{issuer_orig_url}/..."` interpolation is modelled for string
issuers (the type the protocol and every claim use); `str()` formatting
of non-string JSON values is not modelled. -/
def get_public_key_url (loads : String → Except PyErr Json)
    (payload_json_str : String) : Except PyErr String := do
  let payload_json ← loads payload_json_str
  let issuer_orig_url ← pyGetItem payload_json "iss"
  match issuer_orig_url with
  | Json.str iss => Except.ok (iss ++ "/.well-known/jwks.json")
  | _ => Except.error (PyErr.typeError "str() of a non-string issuer is not modelled")

/-- The `for pk in pk_dict["keys"]` loop of `get_public_key_from_keyset`
(parse.py lines 122-136): return the first record whose `kid` equals the
requested one and which passes the `kty`/`use`/`alg`/`crv` checks and has
no `"d"` member; records failing a check are skipped; accessing a checked
field that is absent raises `KeyError` (Python dict subscript); the scan
ending with no match raises the explicit `KeyError` naming the kid. -/
def get_public_key_scan : List Json → String → Except PyErr Json
  | [], kid =>
    Except.error (PyErr.keyError
      ("No public key with specified key-ID " ++ kid ++ " found."))
  | pk :: rest, kid => do
    let pk_kid ← pyGetItem pk "kid"
    if pyEqStr pk_kid kid then
      let kty ← pyGetItem pk "kty"
      if !(pyEqStr kty "EC") then get_public_key_scan rest kid else
      let usev ← pyGetItem pk "use"
      if !(pyEqStr usev "sig") then get_public_key_scan rest kid else
      let alg ← pyGetItem pk "alg"
      if !(pyEqStr alg "ES256") then get_public_key_scan rest kid else
      let crv ← pyGetItem pk "crv"
      if !(pyEqStr crv "P-256") then get_public_key_scan rest kid else
      if pyContains pk "d" then get_public_key_scan rest kid else
      Except.ok pk
    else get_public_key_scan rest kid

/-- Model of `get_public_key_from_keyset` (parse.py lines 117-136):
`json.loads` the key-set body, `assert "keys" in pk_dict`, and run the
scan loop over the `keys` list. Bodies that are not a JSON object, or
whose `keys` member is not a list, are outside every claim; Python's
behaviour there (membership test / iteration over other types) is
abstracted as `TypeError`. -/
def get_public_key_from_keyset (loads : String → Except PyErr Json)
    (pk_json_str : String) (kid : String) : Except PyErr Json := do
  let pk_dict ← loads pk_json_str
  match pk_dict with
  | Json.obj o =>
    match jlookup o "keys" with
    | none => Except.error (PyErr.assertionError "keys in pk_dict")
    | some ks =>
      match ks with
      | Json.arr pks => get_public_key_scan pks kid
      | _ => Except.error (PyErr.typeError "iteration over a non-list keys member")
  | _ => Except.error (PyErr.typeError "membership test on a non-dict body")

/-- Python `int.from_bytes(bs, byteorder="big")`. -/
def int_from_bytes_be (bs : List Nat) : Nat :=
  bs.foldl (fun acc b => acc * 256 + b) 0

/-! ### fastecdsa model (curve P256, `Point`, `ecdsa.verify`)

`validate_jws_data` delegates the cryptography to the external `fastecdsa`
library; the definitions below model its behaviour: the `P256` domain
parameters, the on-curve test, the affine group law (identity represented
as `(0, 0)` as in fastecdsa), and `ecdsa.verify`, which validates the
point and the `r`/`s` ranges (raising `EcdsaError` on failure) before
computing the standard ECDSA equation. The hash is a parameter, as in
`verify(..., hashfunc=sha256)`. -/

/-- The P-256 field prime. -/
def p256_p : Int := 0xffffffff00000001000000000000000000000000ffffffffffffffffffffffff

/-- The P-256 curve coefficient `a = -3 mod p`. -/
def p256_a : Int := 0xffffffff00000001000000000000000000000000fffffffffffffffffffffffc

/-- The P-256 curve coefficient `b`. -/
def p256_b : Int := 0x5ac635d8aa3a93e7b3ebbd55769886bc651d06b0cc53b0f63bce3c3e27d2604b

/-- The P-256 group order (fastecdsa's `curve.q`). -/
def p256_q : Int := 0xffffffff00000000ffffffffffffffffbce6faada7179e84f3b9cac2fc632551

/-- The x coordinate of the P-256 base point. -/
def p256_gx : Int := 0x6b17d1f2e12c4247f8bce6e563a440f277037d812deb33a0f4a13945d898c296

/-- The y coordinate of the P-256 base point. -/
def p256_gy : Int := 0x4fe342e2fe1a7f9b8ee7eb4a7c0f9e162bce33576b315ececbb6406837bf51f5

/-- fastecdsa `curve.is_point_on_curve` for P256:
`(y*y - (x*x*x + a*x + b)) % p == 0`. -/
def is_point_on_curve (x y : Int) : Bool :=
  (y * y - (x * x * x + p256_a * x + p256_b)) % p256_p == 0

/-- An affine point, with `(0, 0)` standing for the identity as in
fastecdsa. -/
structure ECPoint where
  x : Int
  y : Int
deriving DecidableEq

/-- Modular inverse modulo the prime `m` via Fermat (the model never needs
to run this; it is the mathematical value fastecdsa's `mod_inv`
computes). -/
def intModInv (z m : Int) : Int :=
  (((z % m).toNat ^ (m - 2).toNat : Nat) : Int) % m

/-- Affine P-256 group law with `(0, 0)` as identity. -/
def ecAdd (P Q : ECPoint) : ECPoint :=
  if P.x % p256_p == 0 && P.y % p256_p == 0 then Q
  else if Q.x % p256_p == 0 && Q.y % p256_p == 0 then P
  else if P.x % p256_p == Q.x % p256_p then
    if (P.y + Q.y) % p256_p == 0 then ECPoint.mk 0 0
    else
      let l := ((3 * P.x * P.x + p256_a) * intModInv (2 * P.y) p256_p) % p256_p
      let x3 := (l * l - 2 * P.x) % p256_p
      ECPoint.mk x3 ((l * (P.x - x3) - P.y) % p256_p)
  else
    let l := ((Q.y - P.y) * intModInv (Q.x - P.x) p256_p) % p256_p
    let x3 := (l * l - P.x - Q.x) % p256_p
    ECPoint.mk x3 ((l * (P.x - x3) - P.y) % p256_p)

/-- Scalar multiplication by repeated addition (mathematical value only;
never evaluated by the claims). -/
def ecMulNat : Nat → ECPoint → ECPoint
  | 0, _ => ECPoint.mk 0 0
  | n + 1, P => ecAdd P (ecMulNat n P)

/-- fastecdsa `Point.__init__` for curve P256: reject coordinates that are
not on the curve with `ValueError`. -/
def pointNew (x y : Int) : Except PyErr ECPoint :=
  if is_point_on_curve x y then Except.ok (ECPoint.mk x y)
  else Except.error (PyErr.valueError "coordinates are not on curve P256")

/-- fastecdsa `ecdsa.verify(sig, msg, Q, curve=P256, hashfunc=sha256)`:
validate that `Q` is on the curve and that `r` and `s` are in `[1, q]`
(raising `EcdsaError` otherwise, NOT returning a boolean), then decide the
standard ECDSA equation `(u1*G + u2*Q).x ≡ r (mod q)`. The hash of the
message (`sha256` digest read as a big-endian integer; for P-256 the
RFC 6979 truncation is the identity) is the parameter `hashfunc`. -/
def ecdsa_verify (hashfunc : String → Nat) (sig : Int × Int) (msg : String)
    (Q : ECPoint) : Except PyErr Bool :=
  let r := sig.1
  let s := sig.2
  if !(is_point_on_curve Q.x Q.y) then
    Except.error (PyErr.ecdsaError "Invalid public key, point is not on curve P256")
  else if r > p256_q || r < 1 then
    Except.error (PyErr.ecdsaError
      "Invalid Signature: r is not a positive integer smaller than the curve order")
  else if s > p256_q || s < 1 then
    Except.error (PyErr.ecdsaError
      "Invalid Signature: s is not a positive integer smaller than the curve order")
  else
    let e : Int := (hashfunc msg : Int)
    let w := intModInv s p256_q
    let u1 := (e * w) % p256_q
    let u2 := (r * w) % p256_q
    let tmp := ecAdd (ecMulNat u1.toNat (ECPoint.mk p256_gx p256_gy))
      (ecMulNat u2.toNat Q)
    Except.ok (tmp.x % p256_q == r)

/-- Python `assert isinstance(v, str)` followed by use of the string:
`AssertionError` when `v` is not a string. -/
def assertStr (v : Json) : Except PyErr String :=
  match v with
  | Json.str s => Except.ok s
  | _ => Except.error (PyErr.assertionError "isinstance(v, str)")

/-- The key-resolution half of `validate_jws_data` (parse.py lines
172-180): read the header `kid`, build the key URL from the payload,
fetch the key set, select the key, check `x`/`y` are strings, and decode
them to big-endian integers. Split out of `validate_jws_data` so that
claims can constrain the resolved coordinates; `validate_jws_data` below
is exactly this followed by the signature steps of lines 181-184.
The `kid: str` annotation on line 173 is unenforced: Python runs no check
and would carry a non-string kid into the scan, where it compares unequal
to every string `kid` field and is `str()`-formatted into the not-found
message; that path lies outside every claim and is left un-modelled here
(only `x`/`y` on lines 177-178 have real `isinstance` asserts). -/
def validate_pk_coords (loads : String → Except PyErr Json)
    (fetch : String → Except PyErr String)
    (header_json payload_json : String) : Except PyErr (Nat × Nat) := do
  let header_dict ← loads header_json
  let kidv ← pyGetItem header_dict "kid"
  let kid ← match kidv with
    | Json.str kid => Except.ok kid
    | _ => Except.error (PyErr.typeError
        "the scan with a non-string kid is not modelled")
  let pk_url ← get_public_key_url loads payload_json
  let public_keyset_json ← fetch pk_url
  let pk ← get_public_key_from_keyset loads public_keyset_json kid
  let xv ← pyGetItem pk "x"
  let xs ← assertStr xv
  let yv ← pyGetItem pk "y"
  let ys ← assertStr yv
  let xb ← b64_decode xs
  let yb ← b64_decode ys
  Except.ok (int_from_bytes_be xb, int_from_bytes_be yb)

/-- Model of `validate_jws_data` (parse.py lines 160-184): resolve the
public-key coordinates, decode the signature into `r`/`s`, read them as
big-endian integers, build the fastecdsa `Point` (which raises for
off-curve coordinates) and call `ecdsa.verify`. `loads`, `fetch` and
`hashfunc` are the external collaborators (`json.loads`,
`urllib.request.urlopen(...).read().decode("utf-8")`, `sha256`). -/
def validate_jws_data (loads : String → Except PyErr Json)
    (fetch : String → Except PyErr String) (hashfunc : String → Nat)
    (signed_doc header_json payload_json sig : String) : Except PyErr Bool := do
  let (pk_x, pk_y) ← validate_pk_coords loads fetch header_json payload_json
  let (r, s) ← decode_sig sig
  let r_int := int_from_bytes_be r
  let s_int := int_from_bytes_be s
  let Q ← pointNew (pk_x : Int) (pk_y : Int)
  ecdsa_verify hashfunc ((r_int : Int), (s_int : Int)) signed_doc Q

/-! ### Specification-side definitions

`specB64Decode` below follows the specification's words for the Base64
decoder ("pad with `=` to a multiple of 4 before standard decoding",
URL-safe alphabet), to be compared with the source-derived `b64_decode`.
`key_selectable` and `wf_key_record` express the specification's key
selection constraint as a predicate, to compare the scan loop with a
first-match search. -/

/-- URL-safe Base64 alphabet membership (`A-Z`, `a-z`, `0-9`, `-`, `_`). -/
def isUrlSafeChar (c : Char) : Bool :=
  let n := c.toNat
  (65 ≤ n && n ≤ 90) || (97 ≤ n && n ≤ 122) || (48 ≤ n && n ≤ 57) ||
    n == 45 || n == 95

/-- Spec-side value table of the URL-safe Base64 alphabet. -/
def urlVal (c : Char) : Option Nat :=
  let n := c.toNat
  if 65 ≤ n && n ≤ 90 then some (n - 65)
  else if 97 ≤ n && n ≤ 122 then some (n - 71)
  else if 48 ≤ n && n ≤ 57 then some (n + 4)
  else if n == 45 then some 62
  else if n == 95 then some 63
  else none

/-- Spec-side padding: append `=` until the length is a multiple of 4. -/
def specPad (l : List Char) : List Char :=
  l ++ List.replicate ((4 - l.length % 4) % 4) '='

/-- Spec-side standard Base64 decoding of a padded string: groups of four
characters; in the final group `==` leaves one byte and `=` leaves two. -/
def specB64DecodePadded : List Char → Option (List Nat)
  | [] => some []
  | c1 :: c2 :: c3 :: c4 :: rest =>
    match rest with
    | [] =>
      if c3 = '=' && c4 = '=' then
        match urlVal c1, urlVal c2 with
        | some v1, some v2 => some [v1 * 4 + v2 / 16]
        | _, _ => none
      else if c4 = '=' then
        match urlVal c1, urlVal c2, urlVal c3 with
        | some v1, some v2, some v3 =>
          some [v1 * 4 + v2 / 16, (v2 % 16) * 16 + v3 / 4]
        | _, _, _ => none
      else
        match urlVal c1, urlVal c2, urlVal c3, urlVal c4 with
        | some v1, some v2, some v3, some v4 =>
          some [v1 * 4 + v2 / 16, (v2 % 16) * 16 + v3 / 4, (v3 % 4) * 64 + v4]
        | _, _, _, _ => none
    | _ :: _ =>
      match urlVal c1, urlVal c2, urlVal c3, urlVal c4,
          specB64DecodePadded rest with
      | some v1, some v2, some v3, some v4, some tail =>
        some ([v1 * 4 + v2 / 16, (v2 % 16) * 16 + v3 / 4, (v3 % 4) * 64 + v4]
          ++ tail)
      | _, _, _, _, _ => none
  | _ => none

/-- Spec-side Base64 decoding of an unpadded URL-safe string: pad to a
multiple of 4, then decode the padded string. -/
def specB64Decode (s : String) : Option (List Nat) :=
  specB64DecodePadded (specPad s.data)

/-- Value-of-string test on an optional JSON value. -/
def optEqStr (v : Option Json) (s : String) : Bool :=
  match v with
  | some (Json.str t) => t == s
  | _ => false

/-- The specification's selection constraint on one key record: `kid`
matches, `kty`/`use`/`alg`/`crv` are `EC`/`sig`/`ES256`/`P-256`, and no
private-key component `d` is present. -/
def key_selectable (kid : String) (pk : Json) : Bool :=
  match pk with
  | Json.obj o =>
    optEqStr (jlookup o "kid") kid && optEqStr (jlookup o "kty") "EC" &&
    optEqStr (jlookup o "use") "sig" && optEqStr (jlookup o "alg") "ES256" &&
    optEqStr (jlookup o "crv") "P-256" && !(jlookup o "d").isSome
  | _ => false

/-- Well-formedness of a key record: it is an object carrying the `kid`
field and the four checked fields. The Python scan subscripts these
fields, so a record lacking one raises `KeyError` instead of being
skipped; all positive claims about the scan assume this shape. -/
def wf_key_record (pk : Json) : Bool :=
  pyContains pk "kid" && pyContains pk "kty" && pyContains pk "use" &&
    pyContains pk "alg" && pyContains pk "crv"

/-! ### Concrete fixtures used by witnesses and counterexamples -/

/-- Identity decompressor: a concrete instantiation of the `inflate`
collaborator. -/
def inflate0 : List Nat → Except PyErr (List Nat) := fun bs => Except.ok bs

/-- ASCII decoder: a concrete instantiation of the `utf8` collaborator. -/
def utf8ascii : List Nat → Except PyErr String :=
  fun bs => Except.ok (String.mk (bs.map Char.ofNat))

/-- Zero hash: a concrete instantiation of the `hashfunc` collaborator. -/
def hash0 : String → Nat := fun _ => 0

/-! ### Transcoder lemmas and claims C5, C6, C9 -/

theorem decodePairs_length : ∀ l : List Char, (decodePairs l).length = l.length / 2
  | [] => rfl
  | [_] => by simp [decodePairs]
  | _ :: _ :: rest => by
    simp only [decodePairs, List.length_cons, decodePairs_length rest]
    omega

theorem decodePairs_getD : ∀ (l : List Char) (i : Nat), i < (decodePairs l).length →
    (decodePairs l).getD i ' ' =
      Char.ofNat (((l.getD (2 * i) '0').toNat - 48) * 10 +
        ((l.getD (2 * i + 1) '0').toNat - 48) + 45)
  | [], i, h => by simp [decodePairs] at h
  | [_], i, h => by simp [decodePairs] at h
  | a :: b :: rest, 0, _ => by simp [decodePairs]
  | a :: b :: rest, i + 1, h => by
    have hlt : i < (decodePairs rest).length := by
      simp only [decodePairs, List.length_cons] at h
      omega
    have ih := decodePairs_getD rest i hlt
    have e1 : 2 * (i + 1) = 2 * i + 1 + 1 := by ring
    have e2 : 2 * (i + 1) + 1 = (2 * i + 1) + 1 + 1 := by ring
    simp only [decodePairs, List.getD_cons_succ, e1, e2]
    simpa using ih

/-- The no-invalid-characters filter comes out empty on an all-digit
string. -/
theorem filter_nonDigit_eq_nil (s : String)
    (hd : ∀ c ∈ s.data, digitChars.contains c = true) :
    s.data.filter (fun c => !(digitChars.contains c)) = [] := by
  rw [List.filter_eq_nil_iff]
  intro c hc
  simpa using hd c hc

theorem qr_ok_of_digits (s : String)
    (hd : ∀ c ∈ s.data, digitChars.contains c = true) (he : s.length % 2 = 0) :
    qr_int_str_to_b64 s = Except.ok (String.mk (decodePairs s.data)) := by
  unfold qr_int_str_to_b64
  rw [filter_nonDigit_eq_nil s hd]
  simp [he]

/-- C5: for every even-length string of decimal digits, the transcoder
returns, pair by pair and in order, the character whose code point is the
pair's two-digit decimal value plus 45; in particular it maps `"43"` to
`"X"` and `"4343"` to `"XX"`. -/
theorem C5_transcoder_pairs (s : String)
    (hd : ∀ c ∈ s.data, digitChars.contains c = true)
    (he : s.length % 2 = 0) :
    (∃ out, qr_int_str_to_b64 s = Except.ok out ∧
      out.length = s.length / 2 ∧
      ∀ i, i < out.length →
        out.data.getD i ' ' =
          Char.ofNat (((s.data.getD (2 * i) '0').toNat - 48) * 10 +
            ((s.data.getD (2 * i + 1) '0').toNat - 48) + 45)) ∧
    qr_int_str_to_b64 "43" = Except.ok "X" ∧
    qr_int_str_to_b64 "4343" = Except.ok "XX" := by
  refine ⟨⟨String.mk (decodePairs s.data), qr_ok_of_digits s hd he,
    decodePairs_length s.data, ?_⟩, rfl, rfl⟩
  intro i hi
  exact decodePairs_getD s.data i hi

/-- C5 witness: the theorem applied to the concrete digit string `"4343"`. -/
theorem C5_transcoder_pairs_witness :
    (∀ c ∈ ("4343" : String).data, digitChars.contains c = true) ∧
    ∃ out, qr_int_str_to_b64 "4343" = Except.ok out ∧
      out.length = ("4343" : String).length / 2 := by
  have h := C5_transcoder_pairs "4343" (by decide) (by decide)
  obtain ⟨⟨out, h1, h2, _⟩, _, _⟩ := h
  exact ⟨by decide, out, h1, h2⟩

/-- C9: for every even-length string of decimal digits, the transcoder
succeeds and its output has exactly one character per input digit pair,
so no pair is dropped or duplicated. -/
theorem C9_transcoder_output_length (s : String)
    (hd : ∀ c ∈ s.data, digitChars.contains c = true)
    (he : s.length % 2 = 0) :
    ∃ out, qr_int_str_to_b64 s = Except.ok out ∧ out.length = s.length / 2 :=
  ⟨String.mk (decodePairs s.data), qr_ok_of_digits s hd he,
    decodePairs_length s.data⟩

/-- C9 witness: the theorem applied to the concrete digit string `"1234"`. -/
theorem C9_transcoder_output_length_witness :
    (∀ c ∈ ("1234" : String).data, digitChars.contains c = true) ∧
    ∃ out, qr_int_str_to_b64 "1234" = Except.ok out ∧
      out.length = ("1234" : String).length / 2 :=
  ⟨by decide, C9_transcoder_output_length "1234" (by decide) (by decide)⟩

/-- C6: a string with any character outside `0`-`9` is rejected with an
error that carries the full set of invalid characters found (membership
in the reported set is exactly being a non-digit character of the input),
and an odd-length pure-digit string is rejected with an error carrying the
actual length; both before any transcoding output is produced. -/
theorem C6_transcoder_rejects (s : String) :
    ((∃ c ∈ s.data, digitChars.contains c = false) →
      ∃ bad, qr_int_str_to_b64 s = Except.error (PyErr.valueErrorInvalidChars bad) ∧
        bad ≠ [] ∧
        ∀ c, c ∈ bad ↔ (c ∈ s.data ∧ digitChars.contains c = false)) ∧
    ((∀ c ∈ s.data, digitChars.contains c = true) → s.length % 2 = 1 →
      qr_int_str_to_b64 s = Except.error (PyErr.valueErrorOddLength s.length)) := by
  constructor
  · rintro ⟨c, hc, hnd⟩
    have hmem : c ∈ (s.data.filter (fun c => !(digitChars.contains c))).dedup := by
      rw [List.mem_dedup, List.mem_filter]
      exact ⟨hc, by simpa using hnd⟩
    have hne : (s.data.filter (fun c => !(digitChars.contains c))).dedup ≠ [] := by
      intro hnil
      rw [hnil] at hmem
      exact List.not_mem_nil c hmem
    refine ⟨(s.data.filter (fun c => !(digitChars.contains c))).dedup, ?_, hne, ?_⟩
    · unfold qr_int_str_to_b64
      have hcond : ¬(((s.data.filter (fun c => !(digitChars.contains c))).dedup).isEmpty = true) := by
        simp only [List.isEmpty_iff]
        exact hne
      rw [if_neg hcond]
    · intro d
      rw [List.mem_dedup, List.mem_filter]
      simp
  · intro hd he
    unfold qr_int_str_to_b64
    rw [filter_nonDigit_eq_nil s hd]
    simp [he]

/-- C6 witness: the theorem applied to `"1a2a"` (invalid character) and
`"123"` (odd length). -/
theorem C6_transcoder_rejects_witness :
    (∃ bad, qr_int_str_to_b64 "1a2a" =
        Except.error (PyErr.valueErrorInvalidChars bad) ∧ bad ≠ [] ∧
        ∀ c, c ∈ bad ↔ (c ∈ ("1a2a" : String).data ∧ digitChars.contains c = false)) ∧
    qr_int_str_to_b64 "123" = Except.error (PyErr.valueErrorOddLength 3) := by
  constructor
  · exact (C6_transcoder_rejects "1a2a").1 ⟨'a', by decide, by decide⟩
  · exact (C6_transcoder_rejects "123").2 (by decide) (by decide)

/-! ### Signature codec claim C3

`decode_sig` has no length check: a Base64 text that decodes to fewer
than 64 bytes is sliced silently (Python slices never fail), contradicting
both the specification ("signals an error if decoded length ≠ 64 bytes")
and the function's own docstring ("each of the two tuple members are 32
bytes long"). -/

/-- C3: evaluating `decode_sig` at `"QUJD"`, whose Base64 decoding is the
3 bytes `ABC`, yields no error: it returns the 3-byte `r` slice and an
empty `s` slice, although the decoded length is not 64. -/
theorem C3_decode_sig_no_length_check :
    b64_decode "QUJD" = Except.ok [65, 66, 67] ∧
    decode_sig "QUJD" = Except.ok ([65, 66, 67], []) ∧
    ([65, 66, 67] : List Nat).length ≠ 64 :=
  ⟨rfl, rfl, by decide⟩

/-! ### Splitter lemmas and claims C4, C10 -/

/-- Inverse of `pySplitDot`: re-join the segments with dots. -/
def unsplitDot : List (List Char) → List Char
  | [] => []
  | [x] => x
  | x :: xs => x ++ '.' :: unsplitDot xs

theorem pySplitDot_ne_nil : ∀ l : List Char, pySplitDot l ≠ []
  | [] => by simp [pySplitDot]
  | c :: rest => by
    by_cases hc : c = '.'
    · simp [pySplitDot, hc]
    · simp only [pySplitDot, if_neg hc]
      rcases h : pySplitDot rest with _ | ⟨seg, segs⟩ <;> simp

theorem unsplitDot_pySplitDot : ∀ l : List Char, unsplitDot (pySplitDot l) = l
  | [] => rfl
  | c :: rest => by
    have ih := unsplitDot_pySplitDot rest
    by_cases hc : c = '.'
    · subst hc
      rcases h : pySplitDot rest with _ | ⟨seg, segs⟩
      · exact absurd h (pySplitDot_ne_nil rest)
      · rw [h] at ih
        simp only [pySplitDot, if_pos rfl, h, unsplitDot]
        simpa using ih
    · rcases h : pySplitDot rest with _ | ⟨seg, segs⟩
      · exact absurd h (pySplitDot_ne_nil rest)
      · rw [h] at ih
        simp only [pySplitDot, if_neg hc, h]
        rcases segs with _ | ⟨t, ts⟩
        · simpa [unsplitDot] using congrArg (c :: ·) ih
        · simp only [unsplitDot] at ih ⊢
          rw [List.cons_append]
          exact congrArg (c :: ·) ih

/-- Bind on `Except` succeeds exactly when both stages succeed. -/
theorem except_bind_ok {ε α β : Type} (x : Except ε α) (f : α → Except ε β) (b : β) :
    (x >>= f) = Except.ok b ↔ ∃ a, x = Except.ok a ∧ f a = Except.ok b := by
  cases x <;> simp [Bind.bind, Except.bind]

theorem pyGetIdx_ok {α : Type} (l : List α) (i : Nat) (a : α) :
    pyGetIdx l i = Except.ok a ↔ l.get? i = some a := by
  unfold pyGetIdx
  cases h : l.get? i <;> simp

/-- A successful `b64_to_fields` forces at least three dot-separated
segments. -/
theorem b64_to_fields_segments (inflate : List Nat → Except PyErr (List Nat))
    (utf8 : List Nat → Except PyErr String) (b64 : String)
    (t : String × String × String)
    (hf : b64_to_fields inflate utf8 b64 = Except.ok t) :
    ∃ s0 s1 s2 rest, str_split_dot b64 = s0 :: s1 :: s2 :: rest := by
  unfold b64_to_fields at hf
  rw [except_bind_ok] at hf
  obtain ⟨r0, _, hf⟩ := hf
  rw [except_bind_ok] at hf
  obtain ⟨hb, _, hf⟩ := hf
  rw [except_bind_ok] at hf
  obtain ⟨hdr, _, hf⟩ := hf
  rw [except_bind_ok] at hf
  obtain ⟨r1, _, hf⟩ := hf
  rw [except_bind_ok] at hf
  obtain ⟨pb, _, hf⟩ := hf
  rw [except_bind_ok] at hf
  obtain ⟨pi, _, hf⟩ := hf
  rw [except_bind_ok] at hf
  obtain ⟨pl, _, hf⟩ := hf
  rw [except_bind_ok] at hf
  obtain ⟨r2, hr2, _⟩ := hf
  rw [pyGetIdx_ok] at hr2
  have hlen : 2 < (str_split_dot b64).length := by
    rcases List.get?_eq_some.mp hr2 with ⟨h, _⟩
    exact h
  rcases hsp : str_split_dot b64 with _ | ⟨a, _ | ⟨b, _ | ⟨c, rest⟩⟩⟩ <;>
    rw [hsp] at hlen <;> simp at hlen
  exact ⟨a, b, c, rest, rfl⟩

/-- C4: whenever `extract_jws_data_from_qr_data` succeeds, the signed
document it returns is exactly segment 0, a dot, and segment 1 of the
transcoded compact serialization, and that text is a prefix of the
compact serialization itself (still Base64-encoded, unmodified). -/
theorem C4_signed_document (inflate : List Nat → Except PyErr (List Nat))
    (utf8 : List Nat → Except PyErr String) (qr b64 sd hd pl sg : String)
    (hb : qr_int_str_to_b64 (remove_scheme qr) = Except.ok b64)
    (hx : extract_jws_data_from_qr_data inflate utf8 qr =
      Except.ok (sd, hd, pl, sg)) :
    ∃ s0 s1 rest, str_split_dot b64 = s0 :: s1 :: rest ∧
      sd = s0 ++ "." ++ s1 ∧ ∃ tail, b64.data = sd.data ++ '.' :: tail := by
  simp only [extract_jws_data_from_qr_data] at hx
  rw [except_bind_ok] at hx
  obtain ⟨b64v, hb64v, hx⟩ := hx
  obtain rfl : b64 = b64v := Except.ok.inj (hb.symm.trans hb64v)
  rw [except_bind_ok] at hx
  obtain ⟨⟨hd1, pl1, sg1⟩, hfields, hx⟩ := hx
  simp only [Except.ok.injEq, Prod.mk.injEq] at hx
  obtain ⟨hsd, -, -, -⟩ := hx
  obtain ⟨s0, s1, s2, rest, hsp⟩ :=
    b64_to_fields_segments inflate utf8 b64 (hd1, pl1, sg1) hfields
  refine ⟨s0, s1, s2 :: rest, hsp, ?_, ?_⟩
  · rw [hsp] at hsd
    simpa [pyJoin] using hsd.symm
  · obtain ⟨l0, ls, hl, hf0, hmap⟩ := List.map_eq_cons_iff.mp hsp
    obtain ⟨l1, ls2, hl2, hf1, hmap2⟩ := List.map_eq_cons_iff.mp hmap
    obtain ⟨l2, ls3, hl3, hf2, hmap3⟩ := List.map_eq_cons_iff.mp hmap2
    refine ⟨unsplitDot (l2 :: ls3), ?_⟩
    have hjoin := unsplitDot_pySplitDot b64.data
    rw [show pySplitDot b64.data = l0 :: l1 :: l2 :: ls3 by
      rw [hl, hl2, hl3]] at hjoin
    have hsd2 : sd.data = l0 ++ '.' :: l1 := by
      rw [hsp] at hsd
      simp only [pyJoin, List.take] at hsd
      rw [← hsd, ← hf0, ← hf1]
      simp
    rw [← hjoin, hsd2]
    simp [unsplitDot]

/-- C4 witness: the digit string `"363601363601706058"` transcodes to
`"QQ.QQ.sig"`; extraction returns the signed document `"QQ.QQ"`. -/
theorem C4_signed_document_witness :
    qr_int_str_to_b64 (remove_scheme "363601363601706058") =
      Except.ok "QQ.QQ.sig" ∧
    extract_jws_data_from_qr_data inflate0 utf8ascii "363601363601706058" =
      Except.ok ("QQ.QQ", "A", "A", "sig") ∧
    ∃ s0 s1 rest, str_split_dot "QQ.QQ.sig" = s0 :: s1 :: rest ∧
      "QQ.QQ" = s0 ++ "." ++ s1 := by
  have h := C4_signed_document inflate0 utf8ascii "363601363601706058"
    "QQ.QQ.sig" "QQ.QQ" "A" "A" "sig" rfl rfl
  obtain ⟨s0, s1, rest, h1, h2, -⟩ := h
  exact ⟨rfl, rfl, s0, s1, rest, h1, h2⟩

/-- C10: on an input with four or more dot-separated segments,
`b64_to_fields` raises no error about the segment count: it processes
segment 0 as the header, segment 1 as the payload, returns segment 2 as
the signature text, and ignores every further segment. -/
theorem C10_extra_segments_ignored (inflate : List Nat → Except PyErr (List Nat))
    (utf8 : List Nat → Except PyErr String) (b64 s0 s1 s2 : String)
    (rest : List String)
    (hsplit : str_split_dot b64 = s0 :: s1 :: s2 :: rest) (hrest : rest ≠ []) :
    b64_to_fields inflate utf8 b64 = (do
      let hbytes ← b64_decode s0
      let header ← utf8 hbytes
      let pbytes ← b64_decode s1
      let pinf ← inflate pbytes
      let payload ← utf8 pinf
      Except.ok (header, payload, s2)) := by
  unfold b64_to_fields
  rw [hsplit]
  rfl

/-- C10 witness: the 4-segment input `"QQ.QQ.S.T"` is processed from its
first three segments only. -/
theorem C10_extra_segments_ignored_witness :
    str_split_dot "QQ.QQ.S.T" = ["QQ", "QQ", "S", "T"] ∧
    b64_to_fields inflate0 utf8ascii "QQ.QQ.S.T" = Except.ok ("A", "A", "S") := by
  refine ⟨rfl, ?_⟩
  have h := C10_extra_segments_ignored inflate0 utf8ascii "QQ.QQ.S.T"
    "QQ" "QQ" "S" ["T"] rfl (by simp)
  exact h.trans rfl

/-! ### Key-resolution lemmas and claims C1, C7 -/

theorem optEqStr_some (v : Json) (s : String) :
    optEqStr (some v) s = pyEqStr v s := by
  cases v <;> rfl

/-- The not-found error of the scan. -/
def keyNotFoundErr (kid : String) : PyErr :=
  PyErr.keyError ("No public key with specified key-ID " ++ kid ++ " found.")

/-- On well-formed records the scan loop is exactly a first-match search
for the specification's selection constraint, falling back to the
"key not found" error naming the requested kid. -/
theorem scan_eq_find : ∀ (pks : List Json) (kid : String),
    (∀ pk ∈ pks, wf_key_record pk = true) →
    get_public_key_scan pks kid =
      (match pks.find? (key_selectable kid) with
       | some pk => Except.ok pk
       | none => Except.error (keyNotFoundErr kid))
  | [], kid, _ => rfl
  | pk :: rest, kid, hwf => by
    have hw := hwf pk (List.mem_cons_self pk rest)
    have ih := scan_eq_find rest kid (fun q hq => hwf q (List.mem_cons_of_mem pk hq))
    cases pk with
    | obj o =>
      obtain ⟨h1, h2, h3, h4, h5⟩ :
          (jlookup o "kid").isSome = true ∧ (jlookup o "kty").isSome = true ∧
          (jlookup o "use").isSome = true ∧ (jlookup o "alg").isSome = true ∧
          (jlookup o "crv").isSome = true := by
        simpa [wf_key_record, pyContains, Bool.and_eq_true, and_assoc] using hw
      obtain ⟨vkid, hkid⟩ := Option.isSome_iff_exists.mp h1
      obtain ⟨vkty, hkty⟩ := Option.isSome_iff_exists.mp h2
      obtain ⟨vuse, huse⟩ := Option.isSome_iff_exists.mp h3
      obtain ⟨valg, halg⟩ := Option.isSome_iff_exists.mp h4
      obtain ⟨vcrv, hcrv⟩ := Option.isSome_iff_exists.mp h5
      cases hk : pyEqStr vkid kid with
      | false =>
        rw [List.find?_cons_of_neg _ (by
          simp [key_selectable, hkid, optEqStr_some, hk])]
        rw [← ih]
        simp [get_public_key_scan, pyGetItem, hkid, Bind.bind, Except.bind, hk]
      | true =>
        cases hEC : pyEqStr vkty "EC" with
        | false =>
          rw [List.find?_cons_of_neg _ (by
            simp [key_selectable, hkty, optEqStr_some, hEC])]
          rw [← ih]
          simp [get_public_key_scan, pyGetItem, hkid, hkty, Bind.bind,
            Except.bind, hk, hEC]
        | true =>
          cases hsig : pyEqStr vuse "sig" with
          | false =>
            rw [List.find?_cons_of_neg _ (by
              simp [key_selectable, huse, optEqStr_some, hsig])]
            rw [← ih]
            simp [get_public_key_scan, pyGetItem, hkid, hkty, huse, Bind.bind,
              Except.bind, hk, hEC, hsig]
          | true =>
            cases halgv : pyEqStr valg "ES256" with
            | false =>
              rw [List.find?_cons_of_neg _ (by
                simp [key_selectable, halg, optEqStr_some, halgv])]
              rw [← ih]
              simp [get_public_key_scan, pyGetItem, hkid, hkty, huse, halg,
                Bind.bind, Except.bind, hk, hEC, hsig, halgv]
            | true =>
              cases hcrvv : pyEqStr vcrv "P-256" with
              | false =>
                rw [List.find?_cons_of_neg _ (by
                  simp [key_selectable, hcrv, optEqStr_some, hcrvv])]
                rw [← ih]
                simp [get_public_key_scan, pyGetItem, hkid, hkty, huse, halg,
                  hcrv, Bind.bind, Except.bind, hk, hEC, hsig, halgv, hcrvv]
              | true =>
                cases hd : (jlookup o "d").isSome with
                | true =>
                  rw [List.find?_cons_of_neg _ (by
                    simp [key_selectable, hd])]
                  rw [← ih]
                  simp [get_public_key_scan, pyGetItem, pyContains, hkid, hkty,
                    huse, halg, hcrv, Bind.bind, Except.bind, hk, hEC, hsig,
                    halgv, hcrvv, hd]
                | false =>
                  rw [List.find?_cons_of_pos _ (by
                    simp [key_selectable, hkid, hkty, huse, halg, hcrv,
                      optEqStr_some, hk, hEC, hsig, halgv, hcrvv, hd])]
                  simp [get_public_key_scan, pyGetItem, pyContains, hkid, hkty,
                    huse, halg, hcrv, Bind.bind, Except.bind, hk, hEC, hsig,
                    halgv, hcrvv, hd]
    | null => simp [wf_key_record, pyContains] at hw
    | bool b => simp [wf_key_record, pyContains] at hw
    | num n => simp [wf_key_record, pyContains] at hw
    | str s => simp [wf_key_record, pyContains] at hw
    | arr l => simp [wf_key_record, pyContains] at hw

/-- Characterization of `get_public_key_from_keyset` over a parsed body
with a `keys` list of well-formed records: it is the first-match search. -/
theorem keyset_eq_find (loads : String → Except PyErr Json) (s kid : String)
    (o : List (String × Json)) (pks : List Json)
    (hload : loads s = Except.ok (Json.obj o))
    (hkeys : jlookup o "keys" = some (Json.arr pks))
    (hwf : ∀ pk ∈ pks, wf_key_record pk = true) :
    get_public_key_from_keyset loads s kid =
      (match pks.find? (key_selectable kid) with
       | some pk => Except.ok pk
       | none => Except.error (keyNotFoundErr kid)) := by
  unfold get_public_key_from_keyset
  rw [hload]
  simp only [Bind.bind, Except.bind, hkeys]
  exact scan_eq_find pks kid hwf

/-- C1: on a key set whose records are well formed (each carries the
`kid`, `kty`, `use`, `alg`, `crv` fields; parse.py subscripts them, so a
matching-kid record lacking one raises `KeyError` instead of being
skipped, see the counterexample), `get_public_key_from_keyset` returns
the first record in list order whose `kid` matches and whose
`kty`/`use`/`alg`/`crv` are `EC`/`sig`/`ES256`/`P-256` and which has no
`d` member; every other record is skipped, and a returned record never
contains `d`. -/
theorem C1_key_selection (loads : String → Except PyErr Json) (s kid : String)
    (o : List (String × Json)) (pks : List Json)
    (hload : loads s = Except.ok (Json.obj o))
    (hkeys : jlookup o "keys" = some (Json.arr pks))
    (hwf : ∀ pk ∈ pks, wf_key_record pk = true) :
    get_public_key_from_keyset loads s kid =
      (match pks.find? (key_selectable kid) with
       | some pk => Except.ok pk
       | none => Except.error (keyNotFoundErr kid)) ∧
    ∀ pk, get_public_key_from_keyset loads s kid = Except.ok pk →
      pyContains pk "d" = false := by
  have hmain := keyset_eq_find loads s kid o pks hload hkeys hwf
  refine ⟨hmain, ?_⟩
  intro pk hok
  rw [hmain] at hok
  cases hf : pks.find? (key_selectable kid) with
  | none =>
    rw [hf] at hok
    exact absurd hok (by simp)
  | some q =>
    rw [hf] at hok
    have hqpk : q = pk := Except.ok.inj hok
    rw [← hqpk]
    have hsel := List.find?_some hf
    cases q with
    | obj o2 =>
      simp only [key_selectable, Bool.and_eq_true] at hsel
      simpa [pyContains] using hsel.2
    | null => simp [key_selectable] at hsel
    | bool b => simp [key_selectable] at hsel
    | num n => simp [key_selectable] at hsel
    | str t => simp [key_selectable] at hsel
    | arr l => simp [key_selectable] at hsel

/-- A record whose `kid` matches but whose `kty` is not `EC`. -/
def decoyRec : Json := Json.obj [("kid", Json.str "k1"), ("kty", Json.str "RSA"),
  ("use", Json.str "sig"), ("alg", Json.str "ES256"), ("crv", Json.str "P-256")]

/-- A record that matches every constraint but carries a private-key
component `d`. -/
def dRec : Json := Json.obj [("kid", Json.str "k1"), ("kty", Json.str "EC"),
  ("use", Json.str "sig"), ("alg", Json.str "ES256"), ("crv", Json.str "P-256"),
  ("d", Json.str "secret")]

/-- A record satisfying every selection constraint. -/
def goodRec : Json := Json.obj [("kid", Json.str "k1"), ("kty", Json.str "EC"),
  ("use", Json.str "sig"), ("alg", Json.str "ES256"), ("crv", Json.str "P-256"),
  ("x", Json.str "AA"), ("y", Json.str "AQ")]

/-- A key-set body with a wrong-type decoy, a private-key decoy, and one
good record, all with the same kid. -/
def keyset1 : Json := Json.obj [("keys", Json.arr [decoyRec, dRec, goodRec])]

/-- Concrete `json.loads` returning `keyset1` for the fetched body. -/
def loads1 : String → Except PyErr Json :=
  fun s => if s == "KS1" then Except.ok keyset1
    else Except.error (PyErr.valueError "invalid json")

/-- C1 witness: with a wrong-`kty` decoy and a `d`-carrying decoy before
it, the good record is selected, and it has no `d`. -/
theorem C1_key_selection_witness :
    get_public_key_from_keyset loads1 "KS1" "k1" = Except.ok goodRec ∧
    pyContains goodRec "d" = false := by
  have h := C1_key_selection loads1 "KS1" "k1"
    [("keys", Json.arr [decoyRec, dRec, goodRec])] [decoyRec, dRec, goodRec]
    rfl rfl (by decide)
  have hok : get_public_key_from_keyset loads1 "KS1" "k1" = Except.ok goodRec :=
    h.1.trans (by rfl)
  exact ⟨hok, h.2 goodRec hok⟩

/-- A matching-kid record with no `kty` field at all. -/
def shortRec : Json := Json.obj [("kid", Json.str "k1")]

/-- A key-set body holding only `shortRec`. -/
def keysetCex : Json := Json.obj [("keys", Json.arr [shortRec])]

/-- Concrete `json.loads` returning `keysetCex`. -/
def loadsCex : String → Except PyErr Json :=
  fun s => if s == "KSC" then Except.ok keysetCex
    else Except.error (PyErr.valueError "invalid json")

/-- C1 counterexample: a record whose `kid` matches but which has no `kty`
field fails the `kty is EC` constraint, so the claim says it is skipped
and the scan continues (here: to the distinct not-found error); instead
the code raises `KeyError` for the `kty` subscript. -/
theorem C1_key_selection_counterexample :
    get_public_key_from_keyset loadsCex "KSC" "k1" =
      Except.error (PyErr.keyError "kty") ∧
    PyErr.keyError "kty" ≠ keyNotFoundErr "k1" ∧
    ∀ pk : Json, Except.error (PyErr.keyError "kty") ≠ Except.ok pk :=
  ⟨rfl, by decide, fun pk h => Except.noConfusion h⟩

/-- C7: on a body whose `keys` list holds well-formed records none of
which satisfies the selection constraint for the requested kid, the scan
completes and fails with the distinct not-found `KeyError` naming the
kid, never defaulting to a key; a body lacking `keys` fails with the
(different) `AssertionError`. -/
theorem C7_key_not_found (loads : String → Except PyErr Json) (s kid : String)
    (o : List (String × Json)) (pks : List Json)
    (hload : loads s = Except.ok (Json.obj o))
    (hkeys : jlookup o "keys" = some (Json.arr pks))
    (hwf : ∀ pk ∈ pks, wf_key_record pk = true)
    (hnone : ∀ pk ∈ pks, key_selectable kid pk = false) :
    get_public_key_from_keyset loads s kid =
      Except.error (keyNotFoundErr kid) ∧
    (∀ loads2 s2 o2, loads2 s2 = Except.ok (Json.obj o2) →
      jlookup o2 "keys" = none →
      get_public_key_from_keyset loads2 s2 kid =
        Except.error (PyErr.assertionError "keys in pk_dict")) ∧
    keyNotFoundErr kid ≠ PyErr.assertionError "keys in pk_dict" := by
  refine ⟨?_, ?_, by simp [keyNotFoundErr]⟩
  · rw [keyset_eq_find loads s kid o pks hload hkeys hwf]
    rw [List.find?_eq_none.mpr (fun pk hpk => by simp [hnone pk hpk])]
  · intro loads2 s2 o2 hload2 hkeys2
    unfold get_public_key_from_keyset
    rw [hload2]
    simp only [Bind.bind, Except.bind, hkeys2]

/-- A well-formed record whose kid does not match the requested one. -/
def otherRec : Json := Json.obj [("kid", Json.str "other"),
  ("kty", Json.str "EC"), ("use", Json.str "sig"), ("alg", Json.str "ES256"),
  ("crv", Json.str "P-256")]

/-- A key-set body holding only `otherRec`. -/
def keyset7 : Json := Json.obj [("keys", Json.arr [otherRec])]

/-- Concrete `json.loads` returning `keyset7`. -/
def loads7 : String → Except PyErr Json :=
  fun s => if s == "KS7" then Except.ok keyset7
    else Except.error (PyErr.valueError "invalid json")

/-- A body with no `keys` field. -/
def noKeysBody : Json := Json.obj [("foo", Json.null)]

/-- Concrete `json.loads` returning `noKeysBody`. -/
def loads7b : String → Except PyErr Json :=
  fun s => if s == "KN" then Except.ok noKeysBody
    else Except.error (PyErr.valueError "invalid json")

/-- C7 witness: the theorem applied to a one-record key set with a
non-matching kid, and to a body lacking `keys`. -/
theorem C7_key_not_found_witness :
    get_public_key_from_keyset loads7 "KS7" "k1" =
      Except.error (keyNotFoundErr "k1") ∧
    get_public_key_from_keyset loads7b "KN" "k1" =
      Except.error (PyErr.assertionError "keys in pk_dict") := by
  have h := C7_key_not_found loads7 "KS7" "k1" [("keys", Json.arr [otherRec])]
    [otherRec] rfl rfl (by decide) (by decide)
  exact ⟨h.1, h.2.1 loads7b "KN" [("foo", Json.null)] rfl rfl⟩

/-- A record with no `kid` field. -/
def noKidRec : Json := Json.obj [("x", Json.str "AA")]

/-- A key-set body holding only `noKidRec`. -/
def keyset7c : Json := Json.obj [("keys", Json.arr [noKidRec])]

/-- Concrete `json.loads` returning `keyset7c`. -/
def loads7c : String → Except PyErr Json :=
  fun s => if s == "K7C" then Except.ok keyset7c
    else Except.error (PyErr.valueError "invalid json")

/-- C7 counterexample: a key set whose only record satisfies no selection
constraint (it has no `kid` at all), so by the claim the scan should
complete and fail with the not-found error naming the kid; instead the
code raises `KeyError` for the `kid` subscript of the first record. -/
theorem C7_key_not_found_counterexample :
    get_public_key_from_keyset loads7c "K7C" "k1" =
      Except.error (PyErr.keyError "kid") ∧
    PyErr.keyError "kid" ≠ keyNotFoundErr "k1" :=
  ⟨rfl, by decide⟩

/-! ### Signature-verifier claim C2 -/

/-- A header carrying the requested kid. -/
def hdrJson : Json := Json.obj [("kid", Json.str "k1")]

/-- A payload whose issuer key set resolves to the off-curve key. -/
def pldJson : Json := Json.obj [("iss", Json.str "https://ex")]

/-- A payload whose issuer key set resolves to the base-point key. -/
def pldGJson : Json := Json.obj [("iss", Json.str "https://gen")]

/-- A key record whose coordinates decode to the P-256 base point. -/
def genRec : Json := Json.obj [("kid", Json.str "k1"), ("kty", Json.str "EC"),
  ("use", Json.str "sig"), ("alg", Json.str "ES256"), ("crv", Json.str "P-256"),
  ("x", Json.str "axfR8uEsQkf4vOblY6RA8ncDfYEt6zOg9KE5RdiYwpY"),
  ("y", Json.str "T-NC4v4af5uO5-tKfA-eFivOM1drMV7Oy7ZAaDe_UfU")]

/-- A key-set body holding only `genRec`. -/
def keysetG : Json := Json.obj [("keys", Json.arr [genRec])]

/-- Concrete `json.loads` for the C2 scenarios. -/
def loadsC2 : String → Except PyErr Json := fun s =>
  if s == "HDR" then Except.ok hdrJson
  else if s == "PLD" then Except.ok pldJson
  else if s == "PLDG" then Except.ok pldGJson
  else if s == "KS1" then Except.ok keyset1
  else if s == "KSG" then Except.ok keysetG
  else Except.error (PyErr.valueError "invalid json")

/-- Concrete network fetch for the C2 scenarios. -/
def fetchC2 : String → Except PyErr String := fun u =>
  if u == "https://ex/.well-known/jwks.json" then Except.ok "KS1"
  else if u == "https://gen/.well-known/jwks.json" then Except.ok "KSG"
  else Except.error (PyErr.valueError "fetch failed")

/-- A signature segment of 86 `A` characters: 64 zero bytes, so r = s = 0. -/
def sigA : String := "AAAAAAAAAAAAAAAAAAAAAAAAAAAAAAAAAAAAAAAAAAAAAAAAAAAAAAAAAAAAAAAAAAAAAAAAAAAAAAAAAAAAAA"

/-- C2 (amended): when the resolved public-key coordinates are not on
curve P-256, `validate_jws_data` raises the `ValueError` of the fastecdsa
`Point` constructor instead of returning the boolean false; when the
point is on the curve but the decoded `R` is outside `[1, n]` (below 1 or
above the curve order), `ecdsa.verify` raises `EcdsaError` instead of
returning false; and when the point is on the curve and `R` passes the
range check but `S` is outside `[1, n]`, `ecdsa.verify` raises the
`EcdsaError` for `s`. Malformed inputs are errors, not a `false`
result. -/
theorem C2_invalid_inputs_raise (loads : String → Except PyErr Json)
    (fetch : String → Except PyErr String) (hashfunc : String → Nat)
    (sd hj pj sig : String) (x y : Nat) (r s : List Nat)
    (hres : validate_pk_coords loads fetch hj pj = Except.ok (x, y))
    (hsig : decode_sig sig = Except.ok (r, s)) :
    (is_point_on_curve (x : Int) (y : Int) = false →
      validate_jws_data loads fetch hashfunc sd hj pj sig =
        Except.error (PyErr.valueError "coordinates are not on curve P256")) ∧
    (is_point_on_curve (x : Int) (y : Int) = true →
      ((int_from_bytes_be r : Int) < 1 ∨ (int_from_bytes_be r : Int) > p256_q) →
      validate_jws_data loads fetch hashfunc sd hj pj sig =
        Except.error (PyErr.ecdsaError
          "Invalid Signature: r is not a positive integer smaller than the curve order")) ∧
    (is_point_on_curve (x : Int) (y : Int) = true →
      (1 ≤ (int_from_bytes_be r : Int) ∧ (int_from_bytes_be r : Int) ≤ p256_q) →
      ((int_from_bytes_be s : Int) < 1 ∨ (int_from_bytes_be s : Int) > p256_q) →
      validate_jws_data loads fetch hashfunc sd hj pj sig =
        Except.error (PyErr.ecdsaError
          "Invalid Signature: s is not a positive integer smaller than the curve order")) := by
  refine ⟨?_, ?_, ?_⟩
  · intro hoff
    unfold validate_jws_data
    rw [hres]
    simp only [Bind.bind, Except.bind, hsig]
    unfold pointNew
    rw [if_neg (by simp [hoff])]
  · intro hon hr
    unfold validate_jws_data
    rw [hres]
    simp only [Bind.bind, Except.bind, hsig]
    unfold pointNew
    rw [if_pos (by simp [hon])]
    unfold ecdsa_verify
    dsimp only
    rw [if_neg (by simp [hon])]
    rw [if_pos (by
      simp only [Bool.or_eq_true, decide_eq_true_eq]
      exact hr.symm)]
  · intro hon hrin hs
    unfold validate_jws_data
    rw [hres]
    simp only [Bind.bind, Except.bind, hsig]
    unfold pointNew
    rw [if_pos (by simp [hon])]
    unfold ecdsa_verify
    dsimp only
    rw [if_neg (by simp [hon])]
    rw [if_neg (by
      simp only [Bool.or_eq_true, decide_eq_true_eq]
      omega)]
    rw [if_pos (by
      simp only [Bool.or_eq_true, decide_eq_true_eq]
      exact hs.symm)]

/-- A signature segment decoding to r = 1 (in range) and s = 0. -/
def sigB : String :=
  "AAAAAAAAAAAAAAAAAAAAAAAAAAAAAAAAAAAAAAAAAAEAAAAAAAAAAAAAAAAAAAAAAAAAAAAAAAAAAAAAAAAAAA"

/-- C2 witness: the off-curve point `(0, 1)` makes `validate_jws_data`
raise `ValueError`; the on-curve base point with `r = 0` raises the
`EcdsaError` for `r`; the base point with `r = 1` (in range) and `s = 0`
raises the `EcdsaError` for `s`. -/
theorem C2_invalid_inputs_raise_witness :
    validate_pk_coords loadsC2 fetchC2 "HDR" "PLD" = Except.ok (0, 1) ∧
    is_point_on_curve 0 1 = false ∧
    validate_jws_data loadsC2 fetchC2 hash0 "doc" "HDR" "PLD" sigA =
      Except.error (PyErr.valueError "coordinates are not on curve P256") ∧
    validate_pk_coords loadsC2 fetchC2 "HDR" "PLDG" =
      Except.ok (0x6b17d1f2e12c4247f8bce6e563a440f277037d812deb33a0f4a13945d898c296, 0x4fe342e2fe1a7f9b8ee7eb4a7c0f9e162bce33576b315ececbb6406837bf51f5) ∧
    is_point_on_curve 0x6b17d1f2e12c4247f8bce6e563a440f277037d812deb33a0f4a13945d898c296 0x4fe342e2fe1a7f9b8ee7eb4a7c0f9e162bce33576b315ececbb6406837bf51f5 = true ∧
    validate_jws_data loadsC2 fetchC2 hash0 "doc" "HDR" "PLDG" sigA =
      Except.error (PyErr.ecdsaError
        "Invalid Signature: r is not a positive integer smaller than the curve order") ∧
    decode_sig sigB =
      Except.ok (List.replicate 31 0 ++ [1], List.replicate 32 0) ∧
    validate_jws_data loadsC2 fetchC2 hash0 "doc" "HDR" "PLDG" sigB =
      Except.error (PyErr.ecdsaError
        "Invalid Signature: s is not a positive integer smaller than the curve order") := by
  have hres1 : validate_pk_coords loadsC2 fetchC2 "HDR" "PLD" = Except.ok (0, 1) := rfl
  have hres2 : validate_pk_coords loadsC2 fetchC2 "HDR" "PLDG" =
      Except.ok (0x6b17d1f2e12c4247f8bce6e563a440f277037d812deb33a0f4a13945d898c296, 0x4fe342e2fe1a7f9b8ee7eb4a7c0f9e162bce33576b315ececbb6406837bf51f5) := rfl
  have hsig0 : decode_sig sigA =
      Except.ok (List.replicate 32 0, List.replicate 32 0) := rfl
  have hsigB : decode_sig sigB =
      Except.ok (List.replicate 31 0 ++ [1], List.replicate 32 0) := rfl
  have h1 := C2_invalid_inputs_raise loadsC2 fetchC2 hash0 "doc" "HDR" "PLD" sigA
    0 1 (List.replicate 32 0) (List.replicate 32 0) hres1 hsig0
  have h2 := C2_invalid_inputs_raise loadsC2 fetchC2 hash0 "doc" "HDR" "PLDG" sigA
    0x6b17d1f2e12c4247f8bce6e563a440f277037d812deb33a0f4a13945d898c296 0x4fe342e2fe1a7f9b8ee7eb4a7c0f9e162bce33576b315ececbb6406837bf51f5 (List.replicate 32 0) (List.replicate 32 0) hres2 hsig0
  have h3 := C2_invalid_inputs_raise loadsC2 fetchC2 hash0 "doc" "HDR" "PLDG" sigB
    0x6b17d1f2e12c4247f8bce6e563a440f277037d812deb33a0f4a13945d898c296 0x4fe342e2fe1a7f9b8ee7eb4a7c0f9e162bce33576b315ececbb6406837bf51f5 (List.replicate 31 0 ++ [1]) (List.replicate 32 0) hres2 hsigB
  refine ⟨hres1, by decide, h1.1 (by decide), hres2, by decide,
    h2.2.1 (by decide) (Or.inl (by decide)), hsigB,
    h3.2.2 (by decide) ⟨by decide, by decide⟩ (Or.inl (by decide))⟩

/-- C2 counterexample: at a concrete card whose issuer key decodes to the
off-curve point `(0, 1)` and whose signature decodes to 64 zero bytes,
`validate_jws_data` raises `ValueError` — it does not return the boolean
false the claim requires (nor any boolean). -/
theorem C2_counterexample :
    validate_jws_data loadsC2 fetchC2 hash0 "doc" "HDR" "PLD" sigA =
      Except.error (PyErr.valueError "coordinates are not on curve P256") ∧
    (∀ b : Bool, (Except.error (PyErr.valueError "coordinates are not on curve P256") :
      Except PyErr Bool) ≠ Except.ok b) :=
  ⟨rfl, fun b h => Except.noConfusion h⟩

/-! ### Base64 lemmas and claim C8 -/

theorem urlVal_eq (c : Char) (h : isUrlSafeChar c = true) :
    urlVal c = b64CharVal c := by
  have hn := h
  unfold isUrlSafeChar at hn
  simp only [Bool.or_eq_true, Bool.and_eq_true, decide_eq_true_eq,
    beq_iff_eq] at hn
  unfold urlVal b64CharVal
  dsimp only
  split_ifs <;> simp_all <;> omega

theorem b64CharVal_isSome (c : Char) (h : isUrlSafeChar c = true) :
    (b64CharVal c).isSome = true := by
  have hn := h
  unfold isUrlSafeChar at hn
  simp only [Bool.or_eq_true, Bool.and_eq_true, decide_eq_true_eq,
    beq_iff_eq] at hn
  unfold b64CharVal
  dsimp only
  split_ifs <;> simp_all <;> omega

theorem urlSafe_ne_eq (c : Char) (h : isUrlSafeChar c = true) : c ≠ '=' := by
  intro hc
  subst hc
  simp [isUrlSafeChar] at h

theorem charVals_eq_map : ∀ l : List Char,
    (∀ c ∈ l, (b64CharVal c).isSome = true) →
    charVals l = some (l.map (fun c => (b64CharVal c).getD 0))
  | [], _ => rfl
  | c :: rest, h => by
    obtain ⟨v, hv⟩ := Option.isSome_iff_exists.mp (h c (List.mem_cons_self c rest))
    have ih := charVals_eq_map rest (fun d hd => h d (List.mem_cons_of_mem c hd))
    simp [charVals, hv, ih]

theorem spec_decode_agree : ∀ l : List Char,
    (∀ c ∈ l, isUrlSafeChar c = true) → l.length % 4 ≠ 1 →
    specB64DecodePadded (specPad l) =
      some (decodeVals (l.map (fun c => (b64CharVal c).getD 0)))
  | [], _, _ => rfl
  | [a], _, h4 => (h4 (by simp)).elim
  | [a, b], hw, _ => by
    obtain ⟨va, hva⟩ := Option.isSome_iff_exists.mp
      (b64CharVal_isSome a (hw a (by simp)))
    obtain ⟨vb, hvb⟩ := Option.isSome_iff_exists.mp
      (b64CharVal_isSome b (hw b (by simp)))
    rw [show specPad [a, b] = [a, b, '=', '='] from rfl]
    simp [specB64DecodePadded, urlVal_eq a (hw a (by simp)),
      urlVal_eq b (hw b (by simp)), hva, hvb, decodeVals]
  | [a, b, c], hw, _ => by
    obtain ⟨va, hva⟩ := Option.isSome_iff_exists.mp
      (b64CharVal_isSome a (hw a (by simp)))
    obtain ⟨vb, hvb⟩ := Option.isSome_iff_exists.mp
      (b64CharVal_isSome b (hw b (by simp)))
    obtain ⟨vc, hvc⟩ := Option.isSome_iff_exists.mp
      (b64CharVal_isSome c (hw c (by simp)))
    have hcne := urlSafe_ne_eq c (hw c (by simp))
    rw [show specPad [a, b, c] = [a, b, c, '='] from rfl]
    simp [specB64DecodePadded, urlVal_eq a (hw a (by simp)),
      urlVal_eq b (hw b (by simp)), urlVal_eq c (hw c (by simp)),
      hva, hvb, hvc, hcne, decodeVals]
  | a :: b :: c :: d :: rest, hw, h4 => by
    have hwa := hw a (by simp)
    have hwb := hw b (by simp)
    have hwc := hw c (by simp)
    have hwd := hw d (by simp)
    obtain ⟨va, hva⟩ := Option.isSome_iff_exists.mp (b64CharVal_isSome a hwa)
    obtain ⟨vb, hvb⟩ := Option.isSome_iff_exists.mp (b64CharVal_isSome b hwb)
    obtain ⟨vc, hvc⟩ := Option.isSome_iff_exists.mp (b64CharVal_isSome c hwc)
    obtain ⟨vd, hvd⟩ := Option.isSome_iff_exists.mp (b64CharVal_isSome d hwd)
    have hlen : (a :: b :: c :: d :: rest).length % 4 = rest.length % 4 := by
      simp only [List.length_cons]
      omega
    have hpad : specPad (a :: b :: c :: d :: rest) =
        a :: b :: c :: d :: specPad rest := by
      unfold specPad
      rw [hlen]
      simp
    rw [hpad]
    cases rest with
    | nil =>
      have hcne := urlSafe_ne_eq c hwc
      have hdne := urlSafe_ne_eq d hwd
      rw [show specPad ([] : List Char) = [] from rfl]
      simp [specB64DecodePadded, urlVal_eq a hwa, urlVal_eq b hwb,
        urlVal_eq c hwc, urlVal_eq d hwd, hva, hvb, hvc, hvd, hcne, hdne,
        decodeVals]
    | cons x xs =>
      have h4r : (x :: xs).length % 4 ≠ 1 := by
        rw [hlen] at h4
        exact h4
      have ih := spec_decode_agree (x :: xs)
        (fun e he => hw e (by simp [he])) h4r
      have hne : specPad (x :: xs) ≠ [] := by
        unfold specPad
        simp
      rcases hsp : specPad (x :: xs) with _ | ⟨y, ys⟩
      · exact absurd hsp hne
      · rw [hsp] at ih
        simp only [specB64DecodePadded, hsp]
        rw [urlVal_eq a hwa, urlVal_eq b hwb, urlVal_eq c hwc, urlVal_eq d hwd,
          hva, hvb, hvc, hvd, ih]
        simp [decodeVals, hva, hvb, hvc, hvd]

/-- C8: on every string over the URL-safe Base64 alphabet (no padding
characters) whose length is not 1 more than a multiple of 4 (the only
residue with no valid decoding), `b64_decode` returns exactly the bytes
of the specification's decoding: pad with `=` to a multiple of 4, then
standard URL-safe Base64 decoding. This covers lengths of residue 0, 2
and 3 modulo 4. -/
theorem C8_b64_decode_matches_spec (s : String)
    (hw : ∀ c ∈ s.data, isUrlSafeChar c = true)
    (h4 : s.length % 4 ≠ 1) :
    ∃ bs, specB64Decode s = some bs ∧ b64_decode s = Except.ok bs := by
  refine ⟨decodeVals (s.data.map (fun c => (b64CharVal c).getD 0)), ?_, ?_⟩
  · exact spec_decode_agree s.data hw h4
  · unfold b64_decode
    rw [charVals_eq_map s.data (fun c hc => b64CharVal_isSome c (hw c hc))]
    dsimp only
    rw [if_neg (by simpa using h4)]

/-- C8 witness: the theorem applied at one input of each decodable length
residue: `"QUJD"` (0 mod 4), `"QQ"` (2 mod 4) and `"QQ-_"` then `"QQQ"`
(3 mod 4). -/
theorem C8_b64_decode_matches_spec_witness :
    (∃ bs, specB64Decode "QUJD" = some bs ∧ b64_decode "QUJD" = Except.ok bs) ∧
    (∃ bs, specB64Decode "QQ" = some bs ∧ b64_decode "QQ" = Except.ok bs) ∧
    (∃ bs, specB64Decode "QQQ" = some bs ∧ b64_decode "QQQ" = Except.ok bs) :=
  ⟨C8_b64_decode_matches_spec "QUJD" (by decide) (by decide),
   C8_b64_decode_matches_spec "QQ" (by decide) (by decide),
   C8_b64_decode_matches_spec "QQQ" (by decide) (by decide)⟩
